import Mathlib

/-!
Shallow embedding of `custom_components/feelfit/api.py` (class `FeelfitApi`).

Python dictionaries coming from the server are modelled as records with
`Option` fields (`none` = key absent or `None`); Python truthiness of a
string is "non-empty", of an integer "non-zero", of a list "non-empty".
JSON scalar values that the code passes through `str(...)` are modelled by
`PyVal`.  Network I/O is modelled by an `Oracle` record holding the
response of each endpoint; every operation returns, besides its result,
the list of requests it issued and the updated client state, so that
"raised before any network attempt" and "retried exactly once" are
expressible.  Timestamps use `Int` (the code converts them with `int(...)`).
-/

namespace Feelfit

/-- Scalar JSON value as the Python code sees it (used where the code
applies `str(...)` to a field, e.g. `str(profile.get("user_id"))` and
`str(result.get("code"))`). -/
inductive PyVal where
  | pyNone : PyVal
  | pyInt (n : Int) : PyVal
  | pyStr (s : String) : PyVal
deriving DecidableEq, Repr

/-- Python `str(...)` on a `PyVal`; `str(None) = "None"`. -/
def PyVal.toStr : PyVal → String
  | .pyNone => "None"
  | .pyInt n => toString n
  | .pyStr s => s

/-- Python truthiness of an optional string field (`user.get("email")`
etc.): truthy iff present and non-empty. -/
def strTruthy : Option String → Bool
  | none => false
  | some s => !s.isEmpty

/-- A user/profile record as returned by `get_primary_user` /
`list_sub_user` (only the fields the engine reads). -/
structure UserRecord where
  user_id : Option PyVal := none
  account_name : Option String := none
  nickname : Option String := none
  name : Option String := none
  username : Option String := none
  email : Option String := none
  time_stamp : Option Int := none
  is_primary : Option Bool := none
deriving DecidableEq, Repr

/-- `str(profile.get("user_id"))`. -/
def uidStr (p : UserRecord) : String :=
  (p.user_id.getD .pyNone).toStr

/-- `token_info` object of the login response. -/
structure TokenInfo where
  token : Option String := none
  remaining_time : Option Int := none
deriving DecidableEq, Repr

/-- `data` object of the login response. -/
structure LoginData where
  token_info : Option TokenInfo := none
  user_info : Option UserRecord := none
deriving DecidableEq, Repr

/-- Parsed JSON body of an HTTP-200 login response: envelope with a
`code` and a `data` field. -/
structure LoginResult where
  code : Option PyVal := none
  data : Option LoginData := none
deriving DecidableEq, Repr

/-- `FeelfitApiError` by message/origin: "Not authenticated",
HTTP non-200, transport/decoding failure, and the login `code` check
failure that carries the raw server payload. -/
inductive ApiError where
  | notAuthenticated : ApiError
  | http (status : Int) (body : String) : ApiError
  | transport (msg : String) : ApiError
  | loginFailed (raw : LoginResult) : ApiError
deriving DecidableEq, Repr

/-- Per-profile measurements cursor stored in
`self._last_measurements_meta[profile_user_id]`; a field value `0`
stands for "not stored yet" (the code reads both fields with `or 0`). -/
structure Cursor where
  lu : Int := 0
  id : Int := 0
deriving DecidableEq, Repr

/-- The cursor map `self._last_measurements_meta`, keyed by profile id. -/
abbrev MetaMap := List (String × Cursor)

/-- Read a profile's cursor; missing entry reads as zeros, exactly like
`int(meta.get("last_updated_at") or 0)` / `int(meta.get("last_measurement_id", 0) or 0)`. -/
def lookupMeta (m : MetaMap) (pid : String) : Cursor :=
  match m.find? (fun e => e.1 == pid) with
  | some e => e.2
  | none => {}

/-- Write a profile's cursor (dict assignment). -/
def setMeta : MetaMap → String → Cursor → MetaMap
  | [], pid, c => [(pid, c)]
  | (q, c0) :: rest, pid, c =>
      if q = pid then (pid, c) :: rest else (q, c0) :: setMeta rest pid c

/-- An opaque measurement record (the engine never looks inside one). -/
abbrev Measurement := String

/-- Response of `/measurements/list_measurement` (after `data` unwrap):
the measurement list plus the server-reported cursor fields. -/
structure MeasResponse where
  measurements : List Measurement := []
  last_updated_at : Option Int := none
  last_measurement_id : Option Int := none
deriving DecidableEq, Repr

/-- The empty dict `{}` a failed/absent measurements response degrades to. -/
def emptyMeas : MeasResponse := {}

/-- A generic JSON object (user settings, goals): list of key/value
pairs, `[]` being the empty dict `{}`. -/
abbrev Obj := List (String × String)

/-- Nested `brand_info` of a device model. -/
structure BrandInfo where
  brand_name : Option String := none
deriving DecidableEq, Repr

/-- One entry of `device_models`. -/
structure DeviceModel where
  scale_name : Option String := none
  internal_model : Option String := none
  brand_info : Option BrandInfo := none
deriving DecidableEq, Repr

/-- One entry of `device_binds` (fields the join reads; the rest of the
record is carried along unchanged and not modelled). -/
structure DeviceBind where
  scale_name : Option String := none
  internal_model : Option String := none
deriving DecidableEq, Repr

/-- Response of `/device_binds/list_device_bind` after `data` unwrap. -/
structure DeviceBindsResp where
  device_binds : List DeviceBind := []
  device_models : List DeviceModel := []
deriving DecidableEq, Repr

/-- Response of `/users/get_primary_user` after `data` unwrap. -/
structure PrimaryResp where
  user_info : Option UserRecord := none
deriving DecidableEq, Repr

/-- Response of `/sub_users/list_sub_user` after `data` unwrap: the code
accepts either a dict (list under one of the keys `sub_users`, `data`,
`users`) or a bare list. -/
inductive SubUsersResp where
  | asDict (sub_users : Option (List UserRecord)) (data : Option (List UserRecord))
      (users : Option (List UserRecord)) : SubUsersResp
  | asList (l : List UserRecord) : SubUsersResp
deriving DecidableEq, Repr

/-- Server behaviour for one fetch cycle: the (deterministic) response of
each endpoint, measurement responses keyed by the request parameters
`(user_id, last_updated_at, last_measurement_id)`.  `Option` around a
payload models a falsy (`None`/`{}`) `data` field that the code's
`res or {}` replaces by the empty dict. -/
structure Oracle where
  primary_user : Except ApiError PrimaryResp
  sub_users : Except ApiError SubUsersResp
  user_settings : Except ApiError (Option Obj)
  goals : String → Except ApiError (Option Obj)
  device_binds : Except ApiError (Option DeviceBindsResp)
  measurements : String → Int → Int → Except ApiError (Option MeasResponse)

/-- Mutable state of a `FeelfitApi` instance: token, its expiry,
`self.user_info` and the cursor map. -/
structure ClientState where
  token : Option String := none
  token_expires : Option Int := none
  user_info : Option UserRecord := none
  meta : MetaMap := []
deriving DecidableEq, Repr

/-- `not self.token` is false: a token is set and non-empty. -/
def hasToken (s : ClientState) : Bool :=
  match s.token with
  | none => false
  | some t => !t.isEmpty

/-- Result of one operation: what it returns/raises, the requests it
issued (endpoint paths), and the client state afterwards. -/
structure Outcome (α : Type) where
  result : Except ApiError α
  requests : List String
  state : ClientState
deriving Repr

/-! Endpoint path constants from `const.py` (plus the literal sub-users
path used inline in `async_list_all_profiles`). -/

def PATH_LOGIN : String := "/users/sign_in"
def PATH_USER_SETTINGS : String := "/user_settings/show_common_setting"
def PATH_GOALS : String := "/goals/list_goal"
def PATH_DEVICE_BINDS : String := "/device_binds/list_device_bind"
def PATH_MEASUREMENTS : String := "/measurements/list_measurement"
def PATH_GET_PRIMARY_USER : String := "/users/get_primary_user"
def PATH_SUB_USERS : String := "/sub_users/list_sub_user"

/-! ### Login (`async_login`, lines 56–96)

Only the logic after a successful HTTP-200 exchange is modelled (the
transport part is the `Oracle`'s job); `now` stands for `time.time()`. -/

/-- `str(result.get("code"))`. -/
def loginCodeStr (r : LoginResult) : String :=
  (r.code.getD .pyNone).toStr

/-- `data = result.get("data") or {}`. -/
def loginDataOf (r : LoginResult) : LoginData :=
  r.data.getD {}

/-- Handling of a parsed HTTP-200 login body (api.py lines 81–96): the
`code` check, then the token / expiry / `user_info` mutation. -/
def loginHandleResult (r : LoginResult) (now : Int) (s : ClientState) :
    Outcome LoginData :=
  if loginCodeStr r ≠ "200" ∧ loginCodeStr r ≠ "0" then
    { result := .error (.loginFailed r), requests := [PATH_LOGIN], state := s }
  else
    let data := loginDataOf r
    let token_info := data.token_info.getD {}
    let remaining : Int := (token_info.remaining_time).getD 0
    let s1 :=
      match token_info.token with
      | some t =>
          if t.isEmpty then s
          else { s with token := some t, token_expires := some (now + remaining) }
      | none => s
    let s2 := { s1 with user_info := data.user_info }
    { result := .ok data, requests := [PATH_LOGIN], state := s2 }

/-! ### Profile directory (`async_list_all_profiles`, lines 162–233) -/

/-- `email.split("@")[0]`: the characters before the first `@` (the
whole string when there is none). -/
def emailLocalPart (e : String) : String :=
  String.mk (e.data.takeWhile (fun c => c != '@'))

/-- First truthy (non-empty) string of a Python `or` chain, if any. -/
def firstTruthyStr : List (Option String) → Option String
  | [] => none
  | x :: rest => if strTruthy x then x else firstTruthyStr rest

/-- The account-name expression of api.py lines 177–183 / 214–220.
Because `or` binds tighter than `... if ... else ...` in Python, the
expression parses as
`(nickname or name or username or email.split("@")[0]) if email else (None or placeholder)`:
the whole fallback chain is guarded by the email's truthiness. -/
def deriveAccountName (u : UserRecord) (placeholder : String) : String :=
  if strTruthy u.email then
    match firstTruthyStr [u.nickname, u.name, u.username] with
    | some s => s
    | none => emailLocalPart (u.email.getD "")
  else placeholder

/-- `if not user.get("account_name"): user["account_name"] = ...` -/
def normalizeAccountName (u : UserRecord) (placeholder : String) : UserRecord :=
  if strTruthy u.account_name then u
  else { u with account_name := some (deriveAccountName u placeholder) }

/-- The `a or b or c or []` extraction of the polymorphic sub-users
response (lines 197–206): first present non-empty list, else `[]`. -/
def firstTruthyList (xs : List (Option (List UserRecord))) : List UserRecord :=
  match xs with
  | [] => []
  | x :: rest =>
      match x with
      | some l => if l.isEmpty then firstTruthyList rest else l
      | none => firstTruthyList rest

def extractSubUsers : SubUsersResp → List UserRecord
  | .asDict su d u => firstTruthyList [su, d, u]
  | .asList l => l

/-- The positional placeholder `f"Profilo {idx + 2}"`. -/
def subPlaceholder (idx : Nat) : String :=
  s!"Profilo {idx + 2}"

/-- Annotate the sub users (lines 210–225): `is_primary = False` and the
positional placeholder, with `idx` from `enumerate`. -/
def annotateSubUsers (subs : List UserRecord) : List UserRecord :=
  (subs.enum).map fun e =>
    normalizeAccountName { e.2 with is_primary := some false } (subPlaceholder e.1)

/-- Directory body once the token check passed: primary profile (failure
tolerated) followed by the sub users (failure tolerated). -/
def listProfilesPure (o : Oracle) : List UserRecord :=
  let primaries :=
    match o.primary_user with
    | .ok pr =>
        match pr.user_info with
        | some pu =>
            [normalizeAccountName { pu with is_primary := some true } "Profilo Primario"]
        | none => []
    | .error _ => []
  let subs :=
    match o.sub_users with
    | .ok r => annotateSubUsers (extractSubUsers r)
    | .error _ => []
  primaries ++ subs

/-- `async_list_all_profiles` (lines 162–233). -/
def async_list_all_profiles (o : Oracle) (s : ClientState) :
    Outcome (List UserRecord) :=
  if hasToken s then
    { result := .ok (listProfilesPure o),
      requests := [PATH_GET_PRIMARY_USER, PATH_SUB_USERS], state := s }
  else { result := .error .notAuthenticated, requests := [], state := s }

/-! ### Simple authenticated getters (lines 138–160, 235–246) -/

/-- `async_get_primary_user` (lines 138–142). -/
def async_get_primary_user (o : Oracle) (s : ClientState) : Outcome PrimaryResp :=
  if hasToken s then
    { result := o.primary_user, requests := [PATH_GET_PRIMARY_USER], state := s }
  else { result := .error .notAuthenticated, requests := [], state := s }

/-- `async_get_user_settings` (lines 144–148); `_get` unwraps `data or {}`. -/
def async_get_user_settings (o : Oracle) (s : ClientState) : Outcome Obj :=
  if hasToken s then
    { result := o.user_settings.map (fun v => v.getD []),
      requests := [PATH_USER_SETTINGS], state := s }
  else { result := .error .notAuthenticated, requests := [], state := s }

/-- `async_list_goals` (lines 150–154). -/
def async_list_goals (o : Oracle) (s : ClientState) (user_id : String) : Outcome Obj :=
  if hasToken s then
    { result := (o.goals user_id).map (fun v => v.getD []),
      requests := [PATH_GOALS], state := s }
  else { result := .error .notAuthenticated, requests := [], state := s }

/-- `async_list_device_binds` (lines 156–160). -/
def async_list_device_binds (o : Oracle) (s : ClientState) : Outcome DeviceBindsResp :=
  if hasToken s then
    { result := o.device_binds.map (fun v => v.getD {}),
      requests := [PATH_DEVICE_BINDS], state := s }
  else { result := .error .notAuthenticated, requests := [], state := s }

/-- `async_get_last_measurements` (lines 235–246). -/
def async_get_last_measurements (o : Oracle) (s : ClientState) (user_id : String)
    (last_updated_at last_measurement_id : Int) : Outcome MeasResponse :=
  if hasToken s then
    { result := (o.measurements user_id last_updated_at last_measurement_id).map
        (fun v => v.getD {}),
      requests := [PATH_MEASUREMENTS], state := s }
  else { result := .error .notAuthenticated, requests := [], state := s }

/-! ### Incremental fetch engine (`async_fetch_all`, lines 248–441)

The per-profile pipeline (lines 287–396) is split into named stages so
that each can be reasoned about; every stage reads the cursor map only
through the profile's own `Cursor` entry. -/

/-- `primary_ts` resolution (lines 293–299): the profile's `time_stamp`
if truthy, else 0 (conversion failures also yield 0). -/
def primaryTsOf (p : UserRecord) : Int :=
  p.time_stamp.getD 0

/-- Request-cursor resolution (lines 301–306). -/
def requestCursor (lastKnown primaryTs : Int) : Int :=
  if lastKnown > 0 then lastKnown
  else if primaryTs > 0 then primaryTs
  else 0

/-- Degrade-to-empty of one gathered sub-request (lines 334–344 plus the
`res or {}` normalisation): an exception or a falsy payload becomes the
empty value. -/
def resolveOpt {α : Type} (r : Except ApiError (Option α)) (empty : α) : α :=
  match r with
  | .ok (some v) => v
  | .ok none => empty
  | .error _ => empty

/-- The measurements payload of the initial (incremental) request, after
degrade-to-empty. -/
def measPrimaryData (o : Oracle) (c : Cursor) (p : UserRecord) : MeasResponse :=
  resolveOpt
    (o.measurements (uidStr p) (requestCursor c.lu (primaryTsOf p)) c.id) {}

/-- The empty-result fallback condition of line 347:
`not measurements_list and primary_ts and primary_ts != last_known_updated_at`. -/
def retryCond (o : Oracle) (c : Cursor) (p : UserRecord) : Bool :=
  (measPrimaryData o c p).measurements.isEmpty
    && primaryTsOf p != 0
    && primaryTsOf p != c.lu

/-- Measurements payload after the optional one-shot fallback with
`last_updated_at=0, last_measurement_id=0` (lines 347–360); a fallback
failure keeps the (empty-listed) primary payload. -/
def finalMeasData (o : Oracle) (c : Cursor) (p : UserRecord) : MeasResponse :=
  if retryCond o c p then
    match o.measurements (uidStr p) 0 0 with
    | .ok f => f.getD {}
    | .error _ => measPrimaryData o c p
  else measPrimaryData o c p

/-- Arguments of each measurements request this profile issues: the
incremental one, plus the `(0, 0)` fallback when the retry fires. -/
def measRequestsOf (o : Oracle) (c : Cursor) (p : UserRecord) : List (Int × Int) :=
  if retryCond o c p then
    [(requestCursor c.lu (primaryTsOf p), c.id), (0, 0)]
  else [(requestCursor c.lu (primaryTsOf p), c.id)]

/-- Cursor update policy (lines 362–376): each field is overwritten only
by a non-zero response value. -/
def updateCursor (old : Cursor) (rLu rId : Int) : Cursor :=
  { lu := if rLu != 0 then rLu else old.lu,
    id := if rId != 0 then rId else old.id }

/-- The cursor after this profile's fetch. -/
def newCursorOf (o : Oracle) (c : Cursor) (p : UserRecord) : Cursor :=
  updateCursor c ((finalMeasData o c p).last_updated_at.getD 0)
    ((finalMeasData o c p).last_measurement_id.getD 0)

/-- The `measurements` block of a profile record (lines 384, 390–394). -/
structure MeasBlock where
  last_measurement : Option Measurement := none
  measurements : List Measurement := []
  last_updated_at : Option Int := none
deriving DecidableEq, Repr

/-- One entry of the `profiles` output sequence (lines 386–395). -/
structure ProfileData where
  user_info : UserRecord
  user_settings : Obj
  goals : Obj
  measurements : MeasBlock
deriving DecidableEq, Repr

/-- The profile record built for one target profile, as a function of
the oracle, this profile's cursor, and the profile itself. -/
def profileDataOf (o : Oracle) (c : Cursor) (p : UserRecord) : ProfileData :=
  let md := finalMeasData o c p
  { user_info := p,
    user_settings := resolveOpt o.user_settings [],
    goals := resolveOpt (o.goals (uidStr p)) [],
    measurements :=
      { last_measurement := md.measurements.head?,
        measurements := md.measurements,
        last_updated_at := md.last_updated_at } }

/-- One iteration of the per-profile loop: record, cursor-map update,
and the measurement requests issued. -/
structure StepOut where
  data : ProfileData
  meta : MetaMap
  measRequests : List (Int × Int)
deriving Repr

def fetchProfileStep (o : Oracle) (meta : MetaMap) (p : UserRecord) : StepOut :=
  let pid := uidStr p
  let c := lookupMeta meta pid
  { data := profileDataOf o c p,
    meta := setMeta meta pid (newCursorOf o c p),
    measRequests := measRequestsOf o c p }

/-- The whole per-profile loop (lines 287–396), threading the cursor map. -/
def fetchProfiles (o : Oracle) : MetaMap → List UserRecord → List ProfileData × MetaMap
  | meta, [] => ([], meta)
  | meta, p :: rest =>
      let st := fetchProfileStep o meta p
      let (ds, m2) := fetchProfiles o st.meta rest
      (st.data :: ds, m2)

/-! ### Device/model join (lines 398–431) -/

/-- Composite key `(scale_name, internal_model)`. -/
abbrev ModelKey := Option String × Option String

def modelKey (m : DeviceModel) : ModelKey := (m.scale_name, m.internal_model)

def bindKey (d : DeviceBind) : ModelKey := (d.scale_name, d.internal_model)

/-- Association-list lookup (Python dict `.get`). -/
def lookupAssoc {κ : Type} [DecidableEq κ] (l : List (κ × DeviceModel)) (k : κ) :
    Option DeviceModel :=
  match l.find? (fun e => e.1 = k) with
  | some e => some e.2
  | none => none

/-- One iteration of the loop of lines 410–413: insert under the
composite key if it is not present yet. -/
def compInsert (acc : List (ModelKey × DeviceModel)) (m : DeviceModel) :
    List (ModelKey × DeviceModel) :=
  if (lookupAssoc acc (modelKey m)).isSome then acc
  else acc ++ [(modelKey m, m)]

/-- `model_by_scale_and_internal` built by the loop of lines 410–413:
insert-if-absent in iteration order (first occurrence wins). -/
def buildCompositeMap (models : List DeviceModel) : List (ModelKey × DeviceModel) :=
  models.foldl compInsert []

/-- One iteration of lines 414–416: insert under a truthy (non-empty)
`scale_name` if that key is not present yet. -/
def scaleInsert (acc : List (String × DeviceModel)) (m : DeviceModel) :
    List (String × DeviceModel) :=
  match m.scale_name with
  | some sc =>
      if sc.isEmpty then acc
      else if (lookupAssoc acc sc).isSome then acc
      else acc ++ [(sc, m)]
  | none => acc

/-- `model_by_scale` built by lines 414–416. -/
def buildScaleMap (models : List DeviceModel) : List (String × DeviceModel) :=
  models.foldl scaleInsert []

/-- A device bind after the join (lines 419–431): the original record
plus the optional `model_info` / `brand_name` enrichments. -/
structure EnrichedDevice where
  bind : DeviceBind
  model_info : Option DeviceModel := none
  brand_name : Option String := none
deriving DecidableEq, Repr

/-- Join one binding: composite key first, then the scale-only fallback
(`d.get("scale_name", "")`, so an absent scale looks up the empty key);
on a match attach the model and, when its nested `brand_info` holds a
truthy `brand_name`, that brand name. -/
def enrichDevice (comp : List (ModelKey × DeviceModel))
    (byScale : List (String × DeviceModel)) (d : DeviceBind) : EnrichedDevice :=
  let m0 :=
    match lookupAssoc comp (bindKey d) with
    | some x => some x
    | none => lookupAssoc byScale (d.scale_name.getD "")
  match m0 with
  | some mm =>
      { bind := d, model_info := some mm,
        brand_name :=
          match (mm.brand_info.getD {}).brand_name with
          | some b => if b.isEmpty then none else some b
          | none => none }
  | none => { bind := d }

/-- The device section of the cycle (lines 398–431): fetch once for the
account (failure degrades to empty), build the two lookups, enrich. -/
def deviceSection (o : Oracle) : List EnrichedDevice × List DeviceModel :=
  let dbd := resolveOpt o.device_binds {}
  let comp := buildCompositeMap dbd.device_models
  let byScale := buildScaleMap dbd.device_models
  (dbd.device_binds.map (enrichDevice comp byScale), dbd.device_models)

/-! ### Whole-cycle assembly (lines 248–441) -/

/-- The aggregate payload returned by a fetch cycle (lines 433–441). -/
structure Payload where
  profiles : List ProfileData
  all_profiles : List UserRecord
  device_binds_enriched : List EnrichedDevice
  device_models : List DeviceModel
  primary_user : Option PrimaryResp
deriving DecidableEq, Repr

/-- Profile selection (lines 271–283): a truthy selection filters by
`str(user_id)` membership, otherwise all profiles are fetched. -/
def fetchTargets (o : Oracle) (selected : Option (List String)) : List UserRecord :=
  let all := listProfilesPure o
  match selected with
  | some sel => if sel.isEmpty then all else all.filter (fun p => sel.contains (uidStr p))
  | none => all

/-- `self.user_info` update (lines 265–267): replaced only by a truthy
`user_info` of a successful primary fetch. -/
def userInfoUpdate (o : Oracle) (ui : Option UserRecord) : Option UserRecord :=
  match o.primary_user with
  | .ok pr =>
      match pr.user_info with
      | some u => some u
      | none => ui
  | .error _ => ui

/-- Payload and new cursor map of one cycle, given the starting cursor
map (everything of `async_fetch_all` after the token check except the
`self.user_info` side effect). -/
def fetchAllPayload (o : Oracle) (meta : MetaMap) (selected : Option (List String)) :
    Payload × MetaMap :=
  let all := listProfilesPure o
  let targets := fetchTargets o selected
  let (pds, meta2) := fetchProfiles o meta targets
  let (enriched, models) := deviceSection o
  ({ profiles := pds,
     all_profiles := all,
     device_binds_enriched := enriched,
     device_models := models,
     primary_user := match o.primary_user with | .ok pr => some pr | .error _ => none },
   meta2)

/-- Requests issued by one cycle (directory, primary user, three per
profile plus any fallback, device binds). -/
def fetchAllRequests (o : Oracle) (meta : MetaMap) (selected : Option (List String)) :
    List String :=
  let perProfile :=
    ((fetchProfiles o meta (fetchTargets o selected)).1.length) * 3
  [PATH_GET_PRIMARY_USER, PATH_SUB_USERS, PATH_GET_PRIMARY_USER]
    ++ List.replicate perProfile "profile_sub_request" ++ [PATH_DEVICE_BINDS]

/-- `async_fetch_all` (lines 248–441), multi-profile path. -/
def async_fetch_all (o : Oracle) (s : ClientState)
    (selected : Option (List String)) : Outcome Payload :=
  if hasToken s then
    { result := .ok (fetchAllPayload o s.meta selected).1,
      requests := fetchAllRequests o s.meta selected,
      state :=
        { s with
          meta := (fetchAllPayload o s.meta selected).2,
          user_info := userInfoUpdate o s.user_info } }
  else { result := .error .notAuthenticated, requests := [], state := s }

/-- The `last_measurement` of every profile record of a cycle's payload
(`none` when the cycle raised). -/
def lastMeasurementsOf (out : Outcome Payload) : Option (List (Option Measurement)) :=
  match out.result with
  | .ok pl => some (pl.profiles.map (fun pd => pd.measurements.last_measurement))
  | .error _ => none

/-- First model of the list whose composite key is `k` (reference
formulation of "first occurrence wins" for the composite lookup). -/
def firstModelWithKey (models : List DeviceModel) (k : ModelKey) : Option DeviceModel :=
  models.find? (fun m => modelKey m = k)

/-- First model of the list carried by the scale-only fallback lookup
under key `s`: its `scale_name` is exactly the non-empty `s`. -/
def firstModelWithScale (models : List DeviceModel) (s : String) : Option DeviceModel :=
  models.find? (fun m => m.scale_name = some s ∧ s ≠ "")

/-! ### Concrete fixtures used by counterexamples and witnesses -/

/-- A server on which every endpoint succeeds with an empty/absent
payload and every measurements request yields an empty list. -/
def oNull : Oracle :=
  { primary_user := .ok {}
    sub_users := .ok (.asList [])
    user_settings := .ok none
    goals := fun _ => .ok none
    device_binds := .ok none
    measurements := fun _ _ _ => .ok (some {}) }

/-- A profile that carries its own timestamp but has no stored cursor. -/
def pTimestamped : UserRecord :=
  { user_id := some (.pyStr "u1"), time_stamp := some 7 }

/-- A sub user with a non-empty nickname and no email. -/
def uNick : UserRecord :=
  { user_id := some (.pyStr "s1"), nickname := some "Nick" }

/-- A directory server returning no primary profile and one sub user. -/
def oNickDir : Oracle :=
  { oNull with sub_users := .ok (.asList [uNick]) }

/-- An authenticated client with no cursor state. -/
def sAuth : ClientState := { token := some "tok" }

/-- Device-join example models: same scale, two internal models, two brands. -/
def mBrandX : DeviceModel :=
  { scale_name := some "A", internal_model := some "m1",
    brand_info := some { brand_name := some "X" } }

def mBrandY : DeviceModel :=
  { scale_name := some "A", internal_model := some "m2",
    brand_info := some { brand_name := some "Y" } }

/-- Device-join example binding matching `mBrandX`'s composite key. -/
def dBindA : DeviceBind := { scale_name := some "A", internal_model := some "m1" }

/-- A binding with no `scale_name` at all. -/
def dBindNoScale : DeviceBind := { internal_model := some "mZ" }

/-- Login body: code "0", token "abc", no `remaining_time`. -/
def rTokenNoRemaining : LoginResult :=
  { code := some (.pyStr "0"),
    data := some { token_info := some { token := some "abc" } } }

/-- Login body of the spec scenario: code "0", token "abc", remaining 3600. -/
def rTokenRemaining : LoginResult :=
  { code := some (.pyStr "0"),
    data := some { token_info := some { token := some "abc", remaining_time := some 3600 } } }

/-- A server whose directory has one profile and whose measurements
response is non-empty but reports no cursor fields (so a cycle leaves
the cursor untouched). -/
def oSteady : Oracle :=
  { oNull with
    primary_user := .ok { user_info := some { user_id := some (.pyStr "u1") } }
    measurements := fun _ _ _ => .ok (some { measurements := ["m-newest", "m-older"] }) }

/-- An oracle whose measurements endpoint always fails, and whose
directory is `oSteady`'s. -/
def oMeasFail : Oracle :=
  { oSteady with measurements := fun _ _ _ => .error (.http 500 "boom") }

/-- An oracle whose goals endpoint fails while settings and measurements
succeed. -/
def oGoalsFail : Oracle :=
  { oSteady with
    user_settings := .ok (some [("unit", "kg")]),
    goals := fun _ => .error (.http 500 "boom") }

/-- A profile with id "u1" and no timestamp, plus a cursor map that
already stores a non-zero cursor for it. -/
def pU1 : UserRecord := { user_id := some (.pyStr "u1") }

def metaW : MetaMap := [("u1", { lu := 5, id := 3 })]

/-- An oracle whose measurements response reports `last_updated_at = 9`
and no `last_measurement_id`. -/
def oCursorResp : Oracle :=
  { oNull with
    measurements := fun _ _ _ =>
      .ok (some { measurements := ["m9"], last_updated_at := some 9 }) }

/-! ## Helper lemmas -/

theorem lookupMeta_cons (a : String) (c0 : Cursor) (rest : MetaMap) (q : String) :
    lookupMeta ((a, c0) :: rest) q = if a = q then c0 else lookupMeta rest q := by
  by_cases h : a = q
  · simp [lookupMeta, List.find?, h]
  · have hb : (a == q) = false := beq_eq_false_iff_ne.mpr h
    simp [lookupMeta, List.find?, hb, h]

theorem lookupMeta_setMeta (m : MetaMap) (pid : String) (c : Cursor) (q : String) :
    lookupMeta (setMeta m pid c) q = if q = pid then c else lookupMeta m q := by
  induction m with
  | nil =>
      rw [show setMeta [] pid c = [(pid, c)] from rfl, lookupMeta_cons]
      by_cases h : q = pid
      · simp [h]
      · rw [if_neg (fun hh => h hh.symm), if_neg h]
  | cons e rest ih =>
      obtain ⟨a, c0⟩ := e
      by_cases ha : a = pid
      · subst ha
        rw [show setMeta ((a, c0) :: rest) a c = (a, c) :: rest from by simp [setMeta]]
        rw [lookupMeta_cons, lookupMeta_cons]
        by_cases h : a = q
        · simp [h]
        · rw [if_neg h, if_neg (fun hh => h hh.symm), if_neg h]
      · rw [show setMeta ((a, c0) :: rest) pid c = (a, c0) :: setMeta rest pid c from by
          simp [setMeta, ha]]
        rw [lookupMeta_cons, lookupMeta_cons]
        by_cases h : a = q
        · have hqp : ¬ q = pid := fun hq => ha (h.trans hq)
          simp only [if_pos h, if_neg hqp]
        · simp only [if_neg h, ih]

theorem lookupAssoc_cons {κ : Type} [DecidableEq κ] (a : κ) (x : DeviceModel)
    (rest : List (κ × DeviceModel)) (k : κ) :
    lookupAssoc ((a, x) :: rest) k = if a = k then some x else lookupAssoc rest k := by
  by_cases h : a = k <;> simp [lookupAssoc, List.find?, h]

theorem lookupAssoc_append_single {κ : Type} [DecidableEq κ]
    (l : List (κ × DeviceModel)) (k0 : κ) (m : DeviceModel) (k : κ) :
    lookupAssoc (l ++ [(k0, m)]) k =
      match lookupAssoc l k with
      | some x => some x
      | none => if k = k0 then some m else none := by
  induction l with
  | nil =>
      rw [List.nil_append, lookupAssoc_cons]
      by_cases h : k = k0
      · simp [h, lookupAssoc]
      · rw [if_neg (fun hh => h hh.symm), if_neg h]
        rfl
  | cons e rest ih =>
      obtain ⟨a, x⟩ := e
      rw [List.cons_append, lookupAssoc_cons, lookupAssoc_cons, ih]
      by_cases h : a = k
      · simp only [if_pos h]
      · simp only [if_neg h]

theorem lookupAssoc_compInsert (acc : List (ModelKey × DeviceModel))
    (m : DeviceModel) (k : ModelKey) :
    lookupAssoc (compInsert acc m) k =
      match lookupAssoc acc k with
      | some x => some x
      | none => if k = modelKey m then some m else none := by
  unfold compInsert
  by_cases hp : (lookupAssoc acc (modelKey m)).isSome
  · rw [if_pos hp]
    cases hk : lookupAssoc acc k with
    | some x => simp
    | none =>
        by_cases he : k = modelKey m
        · rw [he] at hk
          rw [hk] at hp
          simp at hp
        · simp [he]
  · rw [if_neg hp]
    exact lookupAssoc_append_single acc (modelKey m) m k

theorem lookupAssoc_foldl_comp (models : List DeviceModel)
    (acc : List (ModelKey × DeviceModel)) (k : ModelKey) :
    lookupAssoc (models.foldl compInsert acc) k =
      match lookupAssoc acc k with
      | some x => some x
      | none => firstModelWithKey models k := by
  induction models generalizing acc with
  | nil => cases h : lookupAssoc acc k <;> simp [firstModelWithKey, List.find?, h]
  | cons m rest ih =>
      rw [List.foldl_cons, ih, lookupAssoc_compInsert]
      cases h : lookupAssoc acc k with
      | some x => simp
      | none =>
          by_cases he : k = modelKey m
          · simp [firstModelWithKey, List.find?, he.symm, if_pos he]
          · have : ¬ modelKey m = k := fun hh => he hh.symm
            simp [firstModelWithKey, List.find?, this, if_neg he]

/-- The composite lookup returns the first model with the given key. -/
theorem lookup_buildCompositeMap (models : List DeviceModel) (k : ModelKey) :
    lookupAssoc (buildCompositeMap models) k = firstModelWithKey models k := by
  rw [buildCompositeMap, lookupAssoc_foldl_comp]
  rfl

theorem lookupAssoc_scaleInsert (acc : List (String × DeviceModel))
    (m : DeviceModel) (s : String) :
    lookupAssoc (scaleInsert acc m) s =
      match lookupAssoc acc s with
      | some x => some x
      | none => if m.scale_name = some s ∧ s ≠ "" then some m else none := by
  cases hsc : m.scale_name with
  | none =>
      cases h : lookupAssoc acc s with
      | some x => simp [scaleInsert, hsc, h]
      | none => simp [scaleInsert, hsc, h]
  | some sc =>
      simp only [scaleInsert, hsc]
      by_cases he : sc.isEmpty
      · rw [if_pos he]
        cases h : lookupAssoc acc s with
        | some x => simp
        | none =>
            have hcond : ¬ (sc = s ∧ ¬ s = "") := by
              rintro ⟨h1, h2⟩
              exact h2 (h1 ▸ (String.isEmpty_iff sc).mp he)
            simp [hcond]
      · rw [if_neg he]
        have hne : sc ≠ "" := fun hh => he ((String.isEmpty_iff sc).mpr hh)
        by_cases hp : (lookupAssoc acc sc).isSome
        · rw [if_pos hp]
          cases h : lookupAssoc acc s with
          | some x => simp
          | none =>
              have hcond : ¬ (sc = s ∧ ¬ s = "") := by
                rintro ⟨h1, _⟩
                rw [h1] at hp
                rw [h] at hp
                simp at hp
              simp [hcond]
        · rw [if_neg hp, lookupAssoc_append_single]
          cases h : lookupAssoc acc s with
          | some x => simp
          | none =>
              by_cases hk : s = sc
              · have hcond : (some sc : Option String) = some s ∧ s ≠ "" :=
                  ⟨by rw [hk], hk ▸ hne⟩
                simp [if_pos hk, hcond]
              · have hcond : ¬ (sc = s ∧ ¬ s = "") := by
                  rintro ⟨h1, _⟩
                  exact hk h1.symm
                simp [if_neg hk, hcond]

theorem lookupAssoc_foldl_scale (models : List DeviceModel)
    (acc : List (String × DeviceModel)) (s : String) :
    lookupAssoc (models.foldl scaleInsert acc) s =
      match lookupAssoc acc s with
      | some x => some x
      | none => firstModelWithScale models s := by
  induction models generalizing acc with
  | nil => cases h : lookupAssoc acc s <;> simp [firstModelWithScale, List.find?, h]
  | cons m rest ih =>
      rw [List.foldl_cons, ih, lookupAssoc_scaleInsert]
      cases h : lookupAssoc acc s with
      | some x => simp
      | none =>
          by_cases hc : m.scale_name = some s ∧ s ≠ ""
          · simp [firstModelWithScale, List.find?, hc, if_pos hc]
          · simp [firstModelWithScale, List.find?, hc, if_neg hc]

/-- The scale-only fallback lookup returns the first model whose
`scale_name` is exactly the (non-empty) key. -/
theorem lookup_buildScaleMap (models : List DeviceModel) (s : String) :
    lookupAssoc (buildScaleMap models) s = firstModelWithScale models s := by
  rw [buildScaleMap, lookupAssoc_foldl_scale]
  rfl

theorem fetchProfileStep_eq (o : Oracle) (meta : MetaMap) (p : UserRecord) :
    fetchProfileStep o meta p =
      { data := profileDataOf o (lookupMeta meta (uidStr p)) p,
        meta := setMeta meta (uidStr p) (newCursorOf o (lookupMeta meta (uidStr p)) p),
        measRequests := measRequestsOf o (lookupMeta meta (uidStr p)) p } := rfl

theorem fetchProfiles_cons (o : Oracle) (meta : MetaMap) (p : UserRecord)
    (rest : List UserRecord) :
    fetchProfiles o meta (p :: rest) =
      ((fetchProfileStep o meta p).data ::
          (fetchProfiles o (fetchProfileStep o meta p).meta rest).1,
        (fetchProfiles o (fetchProfileStep o meta p).meta rest).2) := rfl

/-- The per-profile loop reads the cursor map only at the fetched
profiles' ids: two maps agreeing there produce the same records. -/
theorem fetchProfiles_congr (o : Oracle) (ps : List UserRecord) (m1 m2 : MetaMap)
    (h : ∀ pid ∈ ps.map uidStr, lookupMeta m1 pid = lookupMeta m2 pid) :
    (fetchProfiles o m1 ps).1 = (fetchProfiles o m2 ps).1 := by
  induction ps generalizing m1 m2 with
  | nil => rfl
  | cons p rest ih =>
      have hp : lookupMeta m1 (uidStr p) = lookupMeta m2 (uidStr p) := h _ (by simp)
      have hrest : ∀ pid ∈ rest.map uidStr,
          lookupMeta (setMeta m1 (uidStr p) (newCursorOf o (lookupMeta m1 (uidStr p)) p)) pid
            = lookupMeta (setMeta m2 (uidStr p) (newCursorOf o (lookupMeta m2 (uidStr p)) p)) pid := by
        intro pid hmem
        rw [lookupMeta_setMeta, lookupMeta_setMeta, hp]
        by_cases hq : pid = uidStr p
        · simp [hq]
        · rw [if_neg hq, if_neg hq]
          exact h _ (by simp; right; simpa using hmem)
      have hdata : (fetchProfileStep o m1 p).data = (fetchProfileStep o m2 p).data := by
        simp only [fetchProfileStep_eq, hp]
      have htail : (fetchProfiles o (fetchProfileStep o m1 p).meta rest).1
          = (fetchProfiles o (fetchProfileStep o m2 p).meta rest).1 := by
        apply ih
        simpa only [fetchProfileStep_eq] using hrest
      rw [fetchProfiles_cons, fetchProfiles_cons, hdata, htail]

theorem updateCursor_lu (old : Cursor) (rLu rId : Int) :
    (updateCursor old rLu rId).lu = if rLu ≠ 0 then rLu else old.lu := by
  by_cases hr : rLu = 0 <;> simp [updateCursor, hr]

theorem updateCursor_id (old : Cursor) (rLu rId : Int) :
    (updateCursor old rLu rId).id = if rId ≠ 0 then rId else old.id := by
  by_cases hr : rId = 0 <;> simp [updateCursor, hr]

theorem updateCursor_keeps_lu (old : Cursor) (rLu rId : Int) (h : old.lu ≠ 0) :
    (updateCursor old rLu rId).lu ≠ 0 := by
  rw [updateCursor_lu]
  by_cases hr : rLu = 0 <;> simp [hr]
  exact h

theorem updateCursor_keeps_id (old : Cursor) (rLu rId : Int) (h : old.id ≠ 0) :
    (updateCursor old rLu rId).id ≠ 0 := by
  rw [updateCursor_id]
  by_cases hr : rId = 0 <;> simp [hr]
  exact h

/-- Once a cursor field of any profile is non-zero, a whole fetch cycle
leaves it non-zero. -/
theorem fetchProfiles_cursor_nonzero (o : Oracle) (ps : List UserRecord)
    (meta : MetaMap) (q : String) :
    ((lookupMeta meta q).lu ≠ 0 → (lookupMeta (fetchProfiles o meta ps).2 q).lu ≠ 0) ∧
    ((lookupMeta meta q).id ≠ 0 → (lookupMeta (fetchProfiles o meta ps).2 q).id ≠ 0) := by
  induction ps generalizing meta with
  | nil => exact ⟨fun h => h, fun h => h⟩
  | cons p rest ih =>
      rw [fetchProfiles_cons]
      have hstep : ∀ hq : String,
          ((lookupMeta meta hq).lu ≠ 0 →
            (lookupMeta (fetchProfileStep o meta p).meta hq).lu ≠ 0) ∧
          ((lookupMeta meta hq).id ≠ 0 →
            (lookupMeta (fetchProfileStep o meta p).meta hq).id ≠ 0) := by
        intro hq
        rw [fetchProfileStep_eq]
        simp only [lookupMeta_setMeta]
        by_cases hc : hq = uidStr p
        · rw [if_pos hc, hc]
          exact ⟨fun h => updateCursor_keeps_lu _ _ _ h,
            fun h => updateCursor_keeps_id _ _ _ h⟩
        · rw [if_neg hc]
          exact ⟨fun h => h, fun h => h⟩
      exact ⟨fun h => (ih _).1 ((hstep q).1 h), fun h => (ih _).2 ((hstep q).2 h)⟩

/-! ## Claim theorems -/

/-- C4: every device binding is matched against the models first by the
composite `(scale_name, internal_model)` key with the first-occurring
model winning, then by `scale_name` alone (first occurrence wins); a
match attaches `model_info` and, when its `brand_info` holds a brand
name, that `brand_name`.  In particular the binding `{scale "A", model
"m1"}` joined against `[{A,m1,brand X}, {A,m2,brand Y}]` merges brand
"X", not "Y". -/
theorem device_join_composite_first (models : List DeviceModel) (d : DeviceBind) :
    ((enrichDevice (buildCompositeMap models) (buildScaleMap models) d).model_info =
      match firstModelWithKey models (bindKey d) with
      | some m => some m
      | none => firstModelWithScale models (d.scale_name.getD "")) ∧
    ((enrichDevice (buildCompositeMap models) (buildScaleMap models) d).brand_name =
      match (match firstModelWithKey models (bindKey d) with
             | some m => some m
             | none => firstModelWithScale models (d.scale_name.getD "")) with
      | some mm =>
          (match (mm.brand_info.getD {}).brand_name with
           | some b => if b.isEmpty then none else some b
           | none => none)
      | none => none) ∧
    (enrichDevice (buildCompositeMap [mBrandX, mBrandY])
        (buildScaleMap [mBrandX, mBrandY]) dBindA).model_info = some mBrandX ∧
    (enrichDevice (buildCompositeMap [mBrandX, mBrandY])
        (buildScaleMap [mBrandX, mBrandY]) dBindA).brand_name = some "X" := by
  refine ⟨?_, ?_, by decide, by decide⟩
  · simp only [enrichDevice, lookup_buildCompositeMap, lookup_buildScaleMap]
    cases hk : firstModelWithKey models (bindKey d) with
    | some m => simp
    | none =>
        cases hs : firstModelWithScale models (d.scale_name.getD "") with
        | some m => simp
        | none => simp
  · simp only [enrichDevice, lookup_buildCompositeMap, lookup_buildScaleMap]
    cases hk : firstModelWithKey models (bindKey d) with
    | some m => simp
    | none =>
        cases hs : firstModelWithScale models (d.scale_name.getD "") with
        | some m => simp
        | none => simp

/-- C10: the scale-only fallback lookup holds only models with a
non-empty `scale_name` (the model is stored under exactly that name);
the empty-string key — under which a binding with an absent or empty
`scale_name` looks up — is never present; hence such a binding without
a composite match is left unenriched. -/
theorem fallback_join_requires_scale (models : List DeviceModel) (s : String)
    (m : DeviceModel) (d : DeviceBind) :
    (lookupAssoc (buildScaleMap models) s = some m → m.scale_name = some s ∧ s ≠ "") ∧
    (lookupAssoc (buildScaleMap models) "" = none) ∧
    ((d.scale_name = none ∨ d.scale_name = some "") →
      lookupAssoc (buildCompositeMap models) (bindKey d) = none →
      enrichDevice (buildCompositeMap models) (buildScaleMap models) d = { bind := d }) := by
  have hempty : firstModelWithScale models "" = none := by
    simp [firstModelWithScale]
  refine ⟨?_, ?_, ?_⟩
  · rw [lookup_buildScaleMap]
    intro h
    have := List.find?_some h
    simpa using this
  · rw [lookup_buildScaleMap, hempty]
  · intro hsc hcomp
    have hget : d.scale_name.getD "" = "" := by
      rcases hsc with h | h <;> simp [h]
    rw [lookup_buildCompositeMap] at hcomp
    simp only [enrichDevice, lookup_buildCompositeMap, lookup_buildScaleMap,
      hcomp, hget, hempty]

/-- C10 witness: a binding with no `scale_name` and no composite match
(against one model under scale "A") stays unenriched, and that model is
recorded in the fallback lookup under its non-empty scale name. -/
theorem fallback_join_requires_scale_witness :
    enrichDevice (buildCompositeMap [mBrandX]) (buildScaleMap [mBrandX]) dBindNoScale
      = { bind := dBindNoScale } ∧ (mBrandX.scale_name = some "A" ∧ "A" ≠ "") :=
  ⟨(fallback_join_requires_scale [mBrandX] "A" mBrandX dBindNoScale).2.2
      (Or.inl rfl) (by decide),
   (fallback_join_requires_scale [mBrandX] "A" mBrandX dBindNoScale).1 (by decide)⟩

/-- C3 (failing input): in the account-name expression the Python
conditional binds the whole `or` chain, so a profile with a non-empty
nickname but no email is assigned the positional placeholder instead of
the nickname — both at the `deriveAccountName` level and end-to-end
through the directory fetch — while the email-local-part case of the
claim does hold. -/
theorem account_name_email_guard_bug :
    deriveAccountName { nickname := some "Nick" } (subPlaceholder 0) = "Profilo 2" ∧
    deriveAccountName { email := some "bob@x.com" } (subPlaceholder 0) = "bob" ∧
    (async_list_all_profiles oNickDir sAuth).result =
      .ok [{ uNick with is_primary := some false, account_name := some "Profilo 2" }] := by
  refine ⟨rfl, rfl, rfl⟩

/-- C7: given an HTTP-200 login body, the login fails with the error
carrying the raw payload iff the stringified `code` is neither "200"
nor "0"; a good code yields the unwrapped `data` payload. -/
theorem login_code_check (r : LoginResult) (now : Int) (s : ClientState) :
    ((loginHandleResult r now s).result = .error (.loginFailed r) ↔
      (loginCodeStr r ≠ "200" ∧ loginCodeStr r ≠ "0")) ∧
    ((loginCodeStr r = "200" ∨ loginCodeStr r = "0") →
      (loginHandleResult r now s).result = .ok (loginDataOf r)) := by
  by_cases h : loginCodeStr r ≠ "200" ∧ loginCodeStr r ≠ "0"
  · constructor
    · simp [loginHandleResult, h]
    · intro hc
      rcases hc with hc | hc
      · exact absurd hc h.1
      · exact absurd hc h.2
  · have hok : (loginHandleResult r now s).result = .ok (loginDataOf r) := by
      simp [loginHandleResult, h]
    constructor
    · rw [hok]
      simp [h]
    · intro _
      exact hok

/-- C7 witness: the scenario body with code "0" passes the check and
returns its `data` payload. -/
theorem login_code_check_witness :
    loginCodeStr rTokenRemaining = "0" ∧
    (loginHandleResult rTokenRemaining 1000 {}).result = .ok (loginDataOf rTokenRemaining) :=
  ⟨rfl, (login_code_check rTokenRemaining 1000 {}).2 (Or.inr rfl)⟩

/-- C8 counterexample: logging in with token "abc" and an absent
`remaining_time` does not leave the expiry unknown — starting from an
unknown expiry, the code sets it to `now + 0 = now`. -/
theorem login_remaining_absent_expiry_counterexample :
    ({} : ClientState).token_expires = none ∧
    (loginHandleResult rTokenNoRemaining 1000 {}).state.token_expires = some 1000 :=
  ⟨rfl, rfl⟩

/-- C8 (amended): after a successful login whose `token_info` carries a
non-empty token `t`, the session token is `t` and the expiry is
`now + (remaining_time or 0)`; an absent `remaining_time` therefore
yields expiry `now`, not an unknown expiry. -/
theorem login_token_and_expiry (r : LoginResult) (now : Int) (s : ClientState)
    (ti : TokenInfo) (t : String)
    (hcode : loginCodeStr r = "200" ∨ loginCodeStr r = "0")
    (hti : (loginDataOf r).token_info = some ti)
    (htok : ti.token = some t) (hne : t ≠ "") :
    (loginHandleResult r now s).state.token = some t ∧
    (loginHandleResult r now s).state.token_expires =
      some (now + ti.remaining_time.getD 0) := by
  have h : ¬ (loginCodeStr r ≠ "200" ∧ loginCodeStr r ≠ "0") := by
    rcases hcode with hc | hc <;> simp [hc]
  have hemp : t.isEmpty = false := by
    cases he : t.isEmpty
    · rfl
    · exact absurd ((String.isEmpty_iff t).mp he) hne
  simp [loginHandleResult, h, hti, htok, hemp]

/-- C8 witness: the spec scenario — code "0", token "abc", remaining
3600, at time 1000 — yields token "abc" and expiry 4600. -/
theorem login_token_and_expiry_witness :
    (loginHandleResult rTokenRemaining 1000 {}).state.token = some "abc" ∧
    (loginHandleResult rTokenRemaining 1000 {}).state.token_expires = some 4600 :=
  login_token_and_expiry rTokenRemaining 1000 {}
    { token := some "abc", remaining_time := some 3600 } "abc"
    (Or.inr rfl) rfl rfl (by decide)

/-- C6: when the token is unset or empty, every authenticated operation
returns the not-authenticated error, issues no request, and leaves the
client state unchanged. -/
theorem auth_gate (o : Oracle) (s : ClientState) (uid : String) (lu mid : Int)
    (sel : Option (List String)) (h : hasToken s = false) :
    async_get_primary_user o s = ⟨.error .notAuthenticated, [], s⟩ ∧
    async_get_user_settings o s = ⟨.error .notAuthenticated, [], s⟩ ∧
    async_list_goals o s uid = ⟨.error .notAuthenticated, [], s⟩ ∧
    async_list_device_binds o s = ⟨.error .notAuthenticated, [], s⟩ ∧
    async_list_all_profiles o s = ⟨.error .notAuthenticated, [], s⟩ ∧
    async_get_last_measurements o s uid lu mid = ⟨.error .notAuthenticated, [], s⟩ ∧
    async_fetch_all o s sel = ⟨.error .notAuthenticated, [], s⟩ := by
  refine ⟨?_, ?_, ?_, ?_, ?_, ?_, ?_⟩ <;>
    simp [async_get_primary_user, async_get_user_settings, async_list_goals,
      async_list_device_binds, async_list_all_profiles,
      async_get_last_measurements, async_fetch_all, h]

/-- C6 witness: a fresh client (no token) is rejected without any
request and without a state change. -/
theorem auth_gate_witness :
    hasToken ({} : ClientState) = false ∧
    async_fetch_all oNull {} none = ⟨.error .notAuthenticated, [], {}⟩ ∧
    async_list_all_profiles oNull {} = ⟨.error .notAuthenticated, [], {}⟩ :=
  ⟨rfl, (auth_gate oNull {} "u" 0 0 none rfl).2.2.2.2.2.2,
    (auth_gate oNull {} "u" 0 0 none rfl).2.2.2.2.1⟩

/-- C5: each of the three per-profile sub-requests degrades
independently — each slot of the profile record is a function of its own
request only, a failed request yields the empty mapping, and one record
is appended per target profile no matter which sub-requests failed. -/
theorem partial_failure_isolation (o : Oracle) (meta : MetaMap) (p : UserRecord)
    (ps : List UserRecord) (e : ApiError) :
    ((fetchProfileStep o meta p).data.user_settings = resolveOpt o.user_settings []) ∧
    ((fetchProfileStep o meta p).data.goals = resolveOpt (o.goals (uidStr p)) []) ∧
    ((fetchProfileStep o meta p).data.measurements =
      { last_measurement := (finalMeasData o (lookupMeta meta (uidStr p)) p).measurements.head?,
        measurements := (finalMeasData o (lookupMeta meta (uidStr p)) p).measurements,
        last_updated_at := (finalMeasData o (lookupMeta meta (uidStr p)) p).last_updated_at }) ∧
    (o.goals (uidStr p) = .error e →
      (fetchProfileStep o meta p).data.goals = [] ∧
      (fetchProfileStep o meta p).data.user_settings = resolveOpt o.user_settings []) ∧
    (resolveOpt (Except.error e : Except ApiError (Option Obj)) [] = []) ∧
    ((fetchProfiles o meta ps).1.length = ps.length) := by
  refine ⟨rfl, rfl, rfl, ?_, rfl, ?_⟩
  · intro hg
    refine ⟨?_, rfl⟩
    rw [show (fetchProfileStep o meta p).data.goals
        = resolveOpt (o.goals (uidStr p)) [] from rfl, hg]
    rfl
  · induction ps generalizing meta with
    | nil => rfl
    | cons q rest ih =>
        rw [fetchProfiles_cons]
        simp [ih]

/-- C5 witness: with a failing goals endpoint but working settings and
measurements, the record keeps the settings result and empties goals. -/
theorem partial_failure_isolation_witness :
    (fetchProfileStep oGoalsFail [] pTimestamped).data.goals = [] ∧
    (fetchProfileStep oGoalsFail [] pTimestamped).data.user_settings =
      resolveOpt oGoalsFail.user_settings [] :=
  (partial_failure_isolation oGoalsFail [] pTimestamped [] (.http 500 "boom")).2.2.2.1 rfl

/-- C2: after a profile's fetch its stored cursor is the old entry
updated field-wise from the final measurements response — a non-zero
response field overwrites, a zero/absent one preserves — other
profiles' entries are untouched, and a field once non-zero stays
non-zero across a whole cycle. -/
theorem cursor_update_policy (o : Oracle) (meta : MetaMap) (p : UserRecord)
    (q : String) (ps : List UserRecord) :
    (lookupMeta (fetchProfileStep o meta p).meta (uidStr p) =
      updateCursor (lookupMeta meta (uidStr p))
        ((finalMeasData o (lookupMeta meta (uidStr p)) p).last_updated_at.getD 0)
        ((finalMeasData o (lookupMeta meta (uidStr p)) p).last_measurement_id.getD 0)) ∧
    (∀ old rLu rId, (updateCursor old rLu rId).lu = if rLu ≠ 0 then rLu else old.lu) ∧
    (∀ old rLu rId, (updateCursor old rLu rId).id = if rId ≠ 0 then rId else old.id) ∧
    (q ≠ uidStr p → lookupMeta (fetchProfileStep o meta p).meta q = lookupMeta meta q) ∧
    ((lookupMeta meta q).lu ≠ 0 → (lookupMeta (fetchProfiles o meta ps).2 q).lu ≠ 0) ∧
    ((lookupMeta meta q).id ≠ 0 → (lookupMeta (fetchProfiles o meta ps).2 q).id ≠ 0) := by
  refine ⟨?_, updateCursor_lu, updateCursor_id, ?_,
    (fetchProfiles_cursor_nonzero o ps meta q).1,
    (fetchProfiles_cursor_nonzero o ps meta q).2⟩
  · simp only [fetchProfileStep_eq]
    rw [lookupMeta_setMeta, if_pos rfl]
    rfl
  · intro hq
    simp only [fetchProfileStep_eq]
    rw [lookupMeta_setMeta, if_neg hq]

/-- C2 witness: a response reporting `last_updated_at = 9` and no
measurement id turns the stored cursor (5, 3) into (9, 3); an unrelated
profile's entry is untouched and the non-zero cursor survives a cycle. -/
theorem cursor_update_policy_witness :
    lookupMeta (fetchProfileStep oCursorResp metaW pU1).meta "other" =
      lookupMeta metaW "other" ∧
    (lookupMeta (fetchProfiles oCursorResp metaW [pU1]).2 "u1").lu ≠ 0 ∧
    (lookupMeta (fetchProfiles oCursorResp metaW [pU1]).2 "u1").id ≠ 0 :=
  ⟨(cursor_update_policy oCursorResp metaW pU1 "other" [pU1]).2.2.2.1 (by decide),
   (cursor_update_policy oCursorResp metaW pU1 "u1" [pU1]).2.2.2.2.1 (by decide),
   (cursor_update_policy oCursorResp metaW pU1 "u1" [pU1]).2.2.2.2.2 (by decide)⟩

/-- The retry condition of line 347 as a proposition. -/
theorem retryCond_iff (o : Oracle) (c : Cursor) (p : UserRecord) :
    retryCond o c p = true ↔
      ((measPrimaryData o c p).measurements = [] ∧
        primaryTsOf p ≠ 0 ∧ primaryTsOf p ≠ c.lu) := by
  simp [retryCond, Bool.and_eq_true, List.isEmpty_iff, bne_iff_ne, and_assoc]

/-- C1 counterexample: with no stored cursor and profile timestamp 7,
the cursor sent with the incremental request is 7 — equal to the
profile timestamp — yet on an empty result the engine still issues the
`(0, 0)` retry, contradicting "no retry when the timestamp equals the
cursor value used in the request". -/
theorem fallback_retry_not_request_cursor :
    requestCursor (lookupMeta ([] : MetaMap) (uidStr pTimestamped)).lu
        (primaryTsOf pTimestamped) = primaryTsOf pTimestamped ∧
    (fetchProfileStep oNull [] pTimestamped).measRequests = [(7, 0), (0, 0)] :=
  ⟨rfl, rfl⟩

/-- C1 (amended): the one-shot `(0, 0)` retry fires exactly when the
degraded measurements result is empty, the profile timestamp is
non-zero and that timestamp differs from the previously *stored* cursor
value (not from the cursor actually sent, which may equal the timestamp
when no cursor was stored); otherwise only the incremental request is
issued; a failing retry is non-fatal and leaves the result empty. -/
theorem fallback_retry_policy (o : Oracle) (meta : MetaMap) (p : UserRecord) :
    ((measPrimaryData o (lookupMeta meta (uidStr p)) p).measurements = [] ∧
        primaryTsOf p ≠ 0 ∧ primaryTsOf p ≠ (lookupMeta meta (uidStr p)).lu →
      (fetchProfileStep o meta p).measRequests =
        [(requestCursor (lookupMeta meta (uidStr p)).lu (primaryTsOf p),
          (lookupMeta meta (uidStr p)).id), (0, 0)]) ∧
    (¬ ((measPrimaryData o (lookupMeta meta (uidStr p)) p).measurements = [] ∧
        primaryTsOf p ≠ 0 ∧ primaryTsOf p ≠ (lookupMeta meta (uidStr p)).lu) →
      (fetchProfileStep o meta p).measRequests =
        [(requestCursor (lookupMeta meta (uidStr p)).lu (primaryTsOf p),
          (lookupMeta meta (uidStr p)).id)]) ∧
    (∀ e, (measPrimaryData o (lookupMeta meta (uidStr p)) p).measurements = [] →
      primaryTsOf p ≠ 0 → primaryTsOf p ≠ (lookupMeta meta (uidStr p)).lu →
      o.measurements (uidStr p) 0 0 = .error e →
      (fetchProfileStep o meta p).data.measurements.measurements = [] ∧
      (fetchProfileStep o meta p).data.measurements.last_measurement = none) := by
  refine ⟨?_, ?_, ?_⟩
  · intro h
    simp only [fetchProfileStep_eq]
    unfold measRequestsOf
    rw [if_pos ((retryCond_iff o (lookupMeta meta (uidStr p)) p).mpr h)]
  · intro h
    simp only [fetchProfileStep_eq]
    unfold measRequestsOf
    rw [if_neg (fun hc => h ((retryCond_iff o (lookupMeta meta (uidStr p)) p).mp hc))]
  · intro e h1 h2 h3 he
    have hr : retryCond o (lookupMeta meta (uidStr p)) p = true :=
      (retryCond_iff o (lookupMeta meta (uidStr p)) p).mpr ⟨h1, h2, h3⟩
    have hfin : finalMeasData o (lookupMeta meta (uidStr p)) p
        = measPrimaryData o (lookupMeta meta (uidStr p)) p := by
      unfold finalMeasData
      rw [if_pos hr, he]
    constructor
    · rw [show (fetchProfileStep o meta p).data.measurements.measurements
          = (finalMeasData o (lookupMeta meta (uidStr p)) p).measurements from rfl,
        hfin, h1]
    · rw [show (fetchProfileStep o meta p).data.measurements.last_measurement
          = (finalMeasData o (lookupMeta meta (uidStr p)) p).measurements.head? from rfl,
        hfin, h1]
      rfl

/-- C1 witness: empty stored cursor, profile timestamp 7, failing
measurements endpoint — the retry is issued once with `(0, 0)`, its
failure is absorbed, and the result stays empty. -/
theorem fallback_retry_policy_witness :
    (fetchProfileStep oMeasFail [] pTimestamped).measRequests = [(7, 0), (0, 0)] ∧
    (fetchProfileStep oMeasFail [] pTimestamped).data.measurements.measurements = [] ∧
    (fetchProfileStep oMeasFail [] pTimestamped).data.measurements.last_measurement = none :=
  ⟨(fallback_retry_policy oMeasFail [] pTimestamped).1 (by decide),
   ((fallback_retry_policy oMeasFail [] pTimestamped).2.2 (.http 500 "boom")
      (by decide) (by decide) (by decide) rfl).1,
   ((fallback_retry_policy oMeasFail [] pTimestamped).2.2 (.http 500 "boom")
      (by decide) (by decide) (by decide) rfl).2⟩

theorem fetchAllPayload_fst_profiles (o : Oracle) (meta : MetaMap)
    (sel : Option (List String)) :
    (fetchAllPayload o meta sel).1.profiles =
      (fetchProfiles o meta (fetchTargets o sel)).1 := rfl

theorem fetchAllPayload_snd (o : Oracle) (meta : MetaMap)
    (sel : Option (List String)) :
    (fetchAllPayload o meta sel).2 =
      (fetchProfiles o meta (fetchTargets o sel)).2 := rfl

theorem lastMeasurementsOf_fetch_all (o : Oracle) (s : ClientState)
    (sel : Option (List String)) (h : hasToken s = true) :
    lastMeasurementsOf (async_fetch_all o s sel) =
      some ((fetchProfiles o s.meta (fetchTargets o sel)).1.map
        (fun pd => pd.measurements.last_measurement)) := by
  simp [lastMeasurementsOf, async_fetch_all, h, fetchAllPayload_fst_profiles]

/-- C9: two consecutive fetch cycles against the same server responses
return the same `last_measurement` for every profile, provided the first
cycle left the per-profile cursors unchanged. -/
theorem fetch_cycle_idempotent (o : Oracle) (s : ClientState)
    (sel : Option (List String)) (htok : hasToken s = true)
    (h : ∀ pid ∈ (fetchTargets o sel).map uidStr,
        lookupMeta (async_fetch_all o s sel).state.meta pid = lookupMeta s.meta pid) :
    lastMeasurementsOf (async_fetch_all o (async_fetch_all o s sel).state sel) =
      lastMeasurementsOf (async_fetch_all o s sel) := by
  have hstate : (async_fetch_all o s sel).state
      = { s with
          meta := (fetchAllPayload o s.meta sel).2,
          user_info := userInfoUpdate o s.user_info } := by
    simp [async_fetch_all, htok]
  have hstok : hasToken (async_fetch_all o s sel).state = true := by
    rw [hstate]
    exact htok
  have h2 : ∀ pid ∈ (fetchTargets o sel).map uidStr,
      lookupMeta (fetchProfiles o s.meta (fetchTargets o sel)).2 pid
        = lookupMeta s.meta pid := by
    intro pid hm
    have hx := h pid hm
    rw [hstate] at hx
    exact hx
  have hprof : (fetchProfiles o (fetchProfiles o s.meta (fetchTargets o sel)).2
        (fetchTargets o sel)).1
      = (fetchProfiles o s.meta (fetchTargets o sel)).1 :=
    fetchProfiles_congr o _ _ _ h2
  rw [lastMeasurementsOf_fetch_all o _ sel hstok,
    lastMeasurementsOf_fetch_all o s sel htok]
  rw [hstate]
  rw [show ({ s with
        meta := (fetchAllPayload o s.meta sel).2,
        user_info := userInfoUpdate o s.user_info } : ClientState).meta
      = (fetchProfiles o s.meta (fetchTargets o sel)).2 from rfl]
  rw [hprof]

/-- C9 witness: a steady server (non-empty measurements, no reported
cursor fields) leaves the cursor untouched, and the second cycle
returns the same `last_measurement`. -/
theorem fetch_cycle_idempotent_witness :
    hasToken sAuth = true ∧
    lastMeasurementsOf
        (async_fetch_all oSteady (async_fetch_all oSteady sAuth none).state none) =
      lastMeasurementsOf (async_fetch_all oSteady sAuth none) :=
  ⟨rfl, fetch_cycle_idempotent oSteady sAuth none rfl (by decide)⟩

end Feelfit
